import Mathlib

/-
Verification of the ckcore POSIX `File` back-end (src/src/linux/file.cc).

The C++ class `ckcore::File` wraps a POSIX file descriptor (`file_handle_`,
sentinel -1) bound to a path (`file_path_`).  We embed it shallowly:

* `Sys σ` is an abstract operating system: one field per POSIX primitive the
  source calls (`open`, `close`, `lseek`, `read`, `write`, `stat`, `fstat`,
  `unlink`, `rename`, `access`, `localtime_r`), each a pure function on an
  OS state `σ`.  Theorems quantified over all `Sys σ` capture the wrapper's
  control flow independently of OS behaviour; in particular, an operation
  that provably returns the input state unchanged for every `Sys` invokes no
  OS primitive.

* `ckcore.File.*` are literal translations of the member functions, passing
  the `FileState` record (the two data members) and the OS state explicitly.

* `posixSys` is a concrete, executable model of the POSIX calls over a small
  filesystem state (path-to-content map, descriptor table), used for witness
  and counterexample evaluation.
-/

namespace ckcore

/-- `FileMode`: the closed set of open modes {READ, WRITE}. -/
inductive FileMode where
  | ckOPEN_READ
  | ckOPEN_WRITE
deriving DecidableEq, Repr

/-- `FileWhence`: the closed set of seek origins {BEGIN, CURRENT, END}. -/
inductive FileWhence where
  | ckFILE_BEGIN
  | ckFILE_CURRENT
  | ckFILE_END
deriving DecidableEq, Repr

/-- POSIX `SEEK_SET` constant (absolute from start). -/
def SEEK_SET : Int := 0

/-- POSIX `SEEK_CUR` constant (relative to current position). -/
def SEEK_CUR : Int := 1

/-- POSIX `SEEK_END` constant (relative to end). -/
def SEEK_END : Int := 2

/-- POSIX `R_OK` access-check flag. -/
def R_OK : Int := 4

/-- POSIX `W_OK` access-check flag. -/
def W_OK : Int := 2

/-- The fields of `struct stat` that the source reads. -/
structure StatBuf where
  st_size : Int
  st_atime : Int
  st_mtime : Int
  st_ctime : Int
deriving DecidableEq, Repr

/-- An abstract operating system: one field per POSIX primitive called by
`file.cc`, each a function on an OS state `σ`.  `sys_read` also returns the
bytes placed in the caller's buffer; `sys_stat`/`sys_fstat` return the stat
buffer on success; `localtime_r` converts a timestamp to a broken-down local
time (modelled opaquely as `Int`), `none` on conversion failure. -/
structure Sys (σ : Type) where
  sys_open_read : String → σ → Int × σ
  sys_open_write : String → σ → Int × σ
  sys_close : Int → σ → Int × σ
  sys_lseek : Int → Int → Int → σ → Int × σ
  sys_read : Int → Nat → σ → (Int × List Nat) × σ
  sys_write : Int → List Nat → σ → Int × σ
  sys_stat : String → σ → Option StatBuf × σ
  sys_fstat : Int → σ → Option StatBuf × σ
  sys_unlink : String → σ → Int × σ
  sys_rename : String → String → σ → Int × σ
  sys_access : String → Int → σ → Int × σ
  localtime_r : Int → Option Int

/-- The data members of `ckcore::File`: the descriptor (`-1` = absent) and
the bound path. -/
structure FileState where
  file_handle_ : Int
  file_path_ : String
deriving DecidableEq, Repr

namespace File

variable {σ : Type}

/-- `File::File(const Path &)`: records the path, handle absent. -/
def construct (file_path : String) : FileState :=
  { file_handle_ := -1, file_path_ := file_path }

/-- `File::Close()`: fail if the handle is absent; otherwise `close(2)`,
marking the handle absent exactly on success. -/
def Close (S : Sys σ) (f : FileState) (s : σ) : Bool × FileState × σ :=
  if f.file_handle_ = -1 then (false, f, s)
  else
    let r := S.sys_close f.file_handle_ s
    if r.1 = 0 then (true, { f with file_handle_ := -1 }, r.2)
    else (false, f, r.2)

/-- The `switch (file_mode)` body of `File::Open`: acquire a descriptor via
`open(2)` in the requested mode, store it in `file_handle_`, and report
whether it is valid. -/
def open_switch (S : Sys σ) (file_mode : FileMode) (f : FileState) (s : σ) :
    Bool × FileState × σ :=
  let r :=
    match file_mode with
    | FileMode.ckOPEN_READ => S.sys_open_read f.file_path_ s
    | FileMode.ckOPEN_WRITE => S.sys_open_write f.file_path_ s
  (if r.1 = -1 then false else true, { f with file_handle_ := r.1 }, r.2)

/-- `File::Open(FileMode)`: if a handle is present, first try `Close`; a
close failure aborts returning false.  Otherwise acquire a new handle. -/
def Open (S : Sys σ) (file_mode : FileMode) (f : FileState) (s : σ) :
    Bool × FileState × σ :=
  if f.file_handle_ ≠ -1 then
    let c := Close S f s
    if c.1 then open_switch S file_mode c.2.1 c.2.2
    else (false, c.2.1, c.2.2)
  else open_switch S file_mode f s

/-- `File::Test()`: true iff the handle is present. -/
def Test (f : FileState) : Bool :=
  if f.file_handle_ = -1 then false else true

/-- `File::Seek(tint64, FileWhence)`: `-1` if the handle is absent,
otherwise `lseek(2)` with the corresponding whence constant. -/
def Seek (S : Sys σ) (distance : Int) (whence : FileWhence) (f : FileState)
    (s : σ) : Int × FileState × σ :=
  if f.file_handle_ = -1 then (-1, f, s)
  else
    match whence with
    | FileWhence.ckFILE_CURRENT =>
      let r := S.sys_lseek f.file_handle_ distance SEEK_CUR s
      (r.1, f, r.2)
    | FileWhence.ckFILE_BEGIN =>
      let r := S.sys_lseek f.file_handle_ distance SEEK_SET s
      (r.1, f, r.2)
    | FileWhence.ckFILE_END =>
      let r := S.sys_lseek f.file_handle_ distance SEEK_END s
      (r.1, f, r.2)

/-- `File::Tell()`: `-1` if the handle is absent, otherwise
`lseek(fd, 0, SEEK_CUR)`.  The member is `const`, so no `FileState` is
returned. -/
def Tell (S : Sys σ) (f : FileState) (s : σ) : Int × σ :=
  if f.file_handle_ = -1 then (-1, s)
  else S.sys_lseek f.file_handle_ 0 SEEK_CUR s

/-- `File::Read(void *, unsigned long)`: `-1` if the handle is absent,
otherwise `read(2)`.  The second component of the result is the buffer
contents. -/
def Read (S : Sys σ) (count : Nat) (f : FileState) (s : σ) :
    (Int × List Nat) × FileState × σ :=
  if f.file_handle_ = -1 then ((-1, []), f, s)
  else
    let r := S.sys_read f.file_handle_ count s
    (r.1, f, r.2)

/-- `File::Write(const void *, unsigned long)`: `-1` if the handle is
absent, otherwise `write(2)` of the buffer. -/
def Write (S : Sys σ) (buffer : List Nat) (f : FileState) (s : σ) :
    Int × FileState × σ :=
  if f.file_handle_ = -1 then (-1, f, s)
  else
    let r := S.sys_write f.file_handle_ buffer s
    (r.1, f, r.2)

/-- Static `File::Exist(const Path &)`: `stat(2)` succeeds. -/
def Exist_s (S : Sys σ) (file_path : String) (s : σ) : Bool × σ :=
  let r := S.sys_stat file_path s
  (r.1.isSome, r.2)

/-- Instance `File::Exist()`: `fstat(2)` on a present handle, otherwise the
static form on the bound path. -/
def Exist (S : Sys σ) (f : FileState) (s : σ) : Bool × σ :=
  if f.file_handle_ ≠ -1 then
    let r := S.sys_fstat f.file_handle_ s
    (r.1.isSome, r.2)
  else Exist_s S f.file_path_ s

/-- `File::Remove()`: `Close()` unconditionally (result ignored), then
`unlink(2)` on the bound path; true iff the unlink succeeds. -/
def Remove (S : Sys σ) (f : FileState) (s : σ) : Bool × FileState × σ :=
  let c := Close S f s
  let r := S.sys_unlink c.2.1.file_path_ c.2.2
  (if r.1 = 0 then true else false, c.2.1, r.2)

/-- `File::Rename(const Path &)`: refuse if the target exists; otherwise
`Close()`, then `rename(2)`; on success rebind `file_path_`. -/
def Rename (S : Sys σ) (new_file_path : String) (f : FileState) (s : σ) :
    Bool × FileState × σ :=
  let e := Exist_s S new_file_path s
  if e.1 then (false, f, e.2)
  else
    let c := Close S f e.2
    let r := S.sys_rename c.2.1.file_path_ new_file_path c.2.2
    if r.1 = 0 then (true, { c.2.1 with file_path_ := new_file_path }, r.2)
    else (false, c.2.1, r.2)

/-- Static `File::Time(const Path &, ...)`: `stat(2)`, then three
`localtime_r` conversions; any failure yields failure (`none`). -/
def Time_s (S : Sys σ) (file_path : String) (s : σ) :
    Option (Int × Int × Int) × σ :=
  let r := S.sys_stat file_path s
  match r.1 with
  | none => (none, r.2)
  | some st =>
    match S.localtime_r st.st_atime with
    | none => (none, r.2)
    | some access_time =>
      match S.localtime_r st.st_mtime with
      | none => (none, r.2)
      | some modify_time =>
        match S.localtime_r st.st_ctime with
        | none => (none, r.2)
        | some create_time =>
          (some (access_time, modify_time, create_time), r.2)

/-- Instance `File::Time(...)`: `fstat(2)` plus conversions on a present
handle, otherwise the static form on the bound path. -/
def Time (S : Sys σ) (f : FileState) (s : σ) : Option (Int × Int × Int) × σ :=
  if f.file_handle_ ≠ -1 then
    let r := S.sys_fstat f.file_handle_ s
    match r.1 with
    | none => (none, r.2)
    | some st =>
      match S.localtime_r st.st_atime with
      | none => (none, r.2)
      | some access_time =>
        match S.localtime_r st.st_mtime with
        | none => (none, r.2)
        | some modify_time =>
          match S.localtime_r st.st_ctime with
          | none => (none, r.2)
          | some create_time =>
            (some (access_time, modify_time, create_time), r.2)
  else Time_s S f.file_path_ s

/-- Static `File::Access(const Path &, FileMode)`: `access(2)` with `R_OK`
or `W_OK` by mode. -/
def Access_s (S : Sys σ) (file_path : String) (file_mode : FileMode)
    (s : σ) : Bool × σ :=
  match file_mode with
  | FileMode.ckOPEN_READ =>
    let r := S.sys_access file_path R_OK s
    (if r.1 = 0 then true else false, r.2)
  | FileMode.ckOPEN_WRITE =>
    let r := S.sys_access file_path W_OK s
    (if r.1 = 0 then true else false, r.2)

/-- Instance `File::Access(FileMode)`: delegates to the static form on the
bound path. -/
def Access (S : Sys σ) (f : FileState) (file_mode : FileMode) (s : σ) :
    Bool × σ :=
  Access_s S f.file_path_ file_mode s

/-- Static `File::Size(const Path &)`: `stat(2)`, returning `st_size`, or
`-1` on failure. -/
def Size_s (S : Sys σ) (file_path : String) (s : σ) : Int × σ :=
  let r := S.sys_stat file_path s
  match r.1 with
  | none => (-1, r.2)
  | some st => (st.st_size, r.2)

/-- `File::Size()`: static form when not open; otherwise remember the
position with `Tell`, `Seek(0, END)` for the length, `Seek` back, return
the length. -/
def Size (S : Sys σ) (f : FileState) (s : σ) : Int × FileState × σ :=
  if f.file_handle_ = -1 then
    let r := Size_s S f.file_path_ s
    (r.1, f, r.2)
  else
    let cur_pos := Tell S f s
    let size := Seek S 0 FileWhence.ckFILE_END f cur_pos.2
    let back := Seek S cur_pos.1 FileWhence.ckFILE_BEGIN size.2.1 size.2.2
    (size.1, back.2.1, back.2.2)

/-- The path separator. -/
def sepStr : String := "/"

/-- A dot, the POSIX hidden-file marker. -/
def dotStr : String := "."

/-- Modelled from the spec: the POSIX back-end of `File::hidden` is missing
from the excerpt (only the Windows header declares it).  Per the spec, on
POSIX a file is hidden iff its basename begins with a dot. -/
def hidden_s (file_path : String) : Bool :=
  match (file_path.splitOn sepStr).getLast? with
  | none => false
  | some base => base.startsWith dotStr

/-- Modelled from the spec: the instance form of `hidden` delegates to the
static form on the bound path. -/
def hidden (f : FileState) : Bool :=
  hidden_s f.file_path_

end File

/-! ## A concrete, executable POSIX model

A small filesystem (path-to-content association list) plus a descriptor
table (descriptor, path, position).  It instantiates `Sys` for witnesses and
counterexamples. -/

/-- Look up the content of a path in the filesystem map. -/
def lookupFile (files : List (String × List Nat)) (p : String) :
    Option (List Nat) :=
  match files with
  | [] => none
  | (q, c) :: rest => if q = p then some c else lookupFile rest p

/-- Replace the content of a path, or append the binding if absent. -/
def setFile (files : List (String × List Nat)) (p : String)
    (c : List Nat) : List (String × List Nat) :=
  match files with
  | [] => [(p, c)]
  | (q, d) :: rest =>
    if q = p then (q, c) :: rest else (q, d) :: setFile rest p c

/-- Delete the binding of a path. -/
def removeFile (files : List (String × List Nat)) (p : String) :
    List (String × List Nat) :=
  match files with
  | [] => []
  | (q, d) :: rest => if q = p then rest else (q, d) :: removeFile rest p

/-- Look up a descriptor in the table: its path and position. -/
def lookupFd (fds : List (Int × String × Int)) (fd : Int) :
    Option (String × Int) :=
  match fds with
  | [] => none
  | (k, p, pos) :: rest =>
    if k = fd then some (p, pos) else lookupFd rest fd

/-- Set the position stored for a descriptor. -/
def setFdPos (fds : List (Int × String × Int)) (fd : Int) (pos : Int) :
    List (Int × String × Int) :=
  match fds with
  | [] => []
  | (k, p, q) :: rest =>
    if k = fd then (k, p, pos) :: rest else (k, p, q) :: setFdPos rest fd pos

/-- Delete a descriptor from the table. -/
def removeFd (fds : List (Int × String × Int)) (fd : Int) :
    List (Int × String × Int) :=
  match fds with
  | [] => []
  | (k, p, q) :: rest =>
    if k = fd then rest else (k, p, q) :: removeFd rest fd

/-- The concrete OS state: filesystem, descriptor table, next descriptor. -/
structure OSState where
  files : List (String × List Nat)
  fds : List (Int × String × Int)
  next_fd : Int
deriving DecidableEq, Repr

/-- Concrete `open(path, O_RDONLY)`: succeeds iff the path exists,
allocating a fresh descriptor at position 0. -/
def posix_open_read (p : String) (s : OSState) : Int × OSState :=
  match lookupFile s.files p with
  | none => (-1, s)
  | some _ =>
    (s.next_fd,
     { s with fds := (s.next_fd, p, 0) :: s.fds, next_fd := s.next_fd + 1 })

/-- Concrete `open(path, O_CREAT | O_WRONLY, ...)`: creates an empty file
if absent (no truncation), allocating a fresh descriptor at position 0. -/
def posix_open_write (p : String) (s : OSState) : Int × OSState :=
  let files :=
    match lookupFile s.files p with
    | none => setFile s.files p []
    | some _ => s.files
  (s.next_fd,
   { files := files, fds := (s.next_fd, p, 0) :: s.fds,
     next_fd := s.next_fd + 1 })

/-- Concrete `close(fd)`: succeeds iff the descriptor is in the table,
removing it. -/
def posix_close (fd : Int) (s : OSState) : Int × OSState :=
  match lookupFd s.fds fd with
  | none => (-1, s)
  | some _ => (0, { s with fds := removeFd s.fds fd })

/-- Concrete `lseek(fd, off, whence)`: compute the target position from the
whence base; fail on a bad descriptor, unknown whence, or negative target. -/
def posix_lseek (fd : Int) (off : Int) (whence : Int) (s : OSState) :
    Int × OSState :=
  match lookupFd s.fds fd with
  | none => (-1, s)
  | some (p, pos) =>
    let base : Option Int :=
      if whence = SEEK_SET then some 0
      else if whence = SEEK_CUR then some pos
      else if whence = SEEK_END then
        match lookupFile s.files p with
        | none => none
        | some content => some (content.length : Int)
      else none
    match base with
    | none => (-1, s)
    | some b =>
      let newpos := b + off
      if newpos < 0 then (-1, s)
      else (newpos, { s with fds := setFdPos s.fds fd newpos })

/-- Concrete `read(fd, buf, count)`: transfer up to `count` bytes from the
current position, advancing it; 0 bytes at end of file. -/
def posix_read (fd : Int) (count : Nat) (s : OSState) :
    (Int × List Nat) × OSState :=
  match lookupFd s.fds fd with
  | none => ((-1, []), s)
  | some (p, pos) =>
    match lookupFile s.files p with
    | none => ((-1, []), s)
    | some content =>
      let chunk := (content.drop pos.toNat).take count
      (((chunk.length : Int), chunk),
       { s with fds := setFdPos s.fds fd (pos + (chunk.length : Int)) })

/-- Concrete `write(fd, buf, count)`: overlay the buffer at the current
position (zero-filling any gap past the end), advancing the position. -/
def posix_write (fd : Int) (data : List Nat) (s : OSState) :
    Int × OSState :=
  match lookupFd s.fds fd with
  | none => (-1, s)
  | some (p, pos) =>
    match lookupFile s.files p with
    | none => (-1, s)
    | some content =>
      let pn := pos.toNat
      let padded := content ++ List.replicate (pn - content.length) 0
      let content2 :=
        padded.take pn ++ data ++ padded.drop (pn + data.length)
      ((data.length : Int),
       { s with files := setFile s.files p content2,
                fds := setFdPos s.fds fd (pos + (data.length : Int)) })

/-- Concrete `stat(path)`: the stat buffer (size = content length) iff the
path exists.  Timestamps are modelled as 0. -/
def posix_stat (p : String) (s : OSState) : Option StatBuf × OSState :=
  match lookupFile s.files p with
  | none => (none, s)
  | some content =>
    (some { st_size := (content.length : Int), st_atime := 0,
            st_mtime := 0, st_ctime := 0 }, s)

/-- Concrete `fstat(fd)`: succeeds iff the descriptor is valid. -/
def posix_fstat (fd : Int) (s : OSState) : Option StatBuf × OSState :=
  match lookupFd s.fds fd with
  | none => (none, s)
  | some (p, _) =>
    let size : Int :=
      match lookupFile s.files p with
      | none => 0
      | some content => (content.length : Int)
    (some { st_size := size, st_atime := 0, st_mtime := 0, st_ctime := 0 },
     s)

/-- Concrete `unlink(path)`: succeeds iff the path exists, deleting it. -/
def posix_unlink (p : String) (s : OSState) : Int × OSState :=
  match lookupFile s.files p with
  | none => (-1, s)
  | some _ => (0, { s with files := removeFile s.files p })

/-- Concrete `rename(old, new)`: succeeds iff the old path exists, moving
its content to the new path. -/
def posix_rename (old_p new_p : String) (s : OSState) : Int × OSState :=
  match lookupFile s.files old_p with
  | none => (-1, s)
  | some content =>
    (0, { s with files := setFile (removeFile s.files old_p) new_p content })

/-- Concrete `access(path, mode)`: succeeds iff the path exists
(permission bits are not modelled). -/
def posix_access (p : String) (_mode : Int) (s : OSState) : Int × OSState :=
  match lookupFile s.files p with
  | none => (-1, s)
  | some _ => (0, s)

/-- The concrete POSIX instantiation of the abstract OS. -/
def posixSys : Sys OSState :=
  { sys_open_read := posix_open_read
    sys_open_write := posix_open_write
    sys_close := posix_close
    sys_lseek := posix_lseek
    sys_read := posix_read
    sys_write := posix_write
    sys_stat := posix_stat
    sys_fstat := posix_fstat
    sys_unlink := posix_unlink
    sys_rename := posix_rename
    sys_access := posix_access
    localtime_r := fun t => some t }

/-! ## Operation traces

A trace is a list of member-function invocations on one `File`, run from a
freshly constructed state.  `runOps` returns the final state and the log of
per-operation results; `runEvents` additionally extracts the OS
handle-transition events (acquisitions by `open(2)`, releases by
`close(2)`) that the run performs. -/

/-- One member-function invocation on a `File`. -/
inductive Op where
  | op_open (file_mode : FileMode)
  | op_close
  | op_remove
  | op_seek (distance : Int) (whence : FileWhence)
  | op_tell
  | op_read (count : Nat)
  | op_write (buffer : List Nat)
  | op_rename (new_file_path : String)
deriving DecidableEq, Repr

/-- The result an invocation returns to the caller. -/
inductive OpResult where
  | rbool (b : Bool)
  | rint (i : Int)
deriving DecidableEq, Repr

namespace File

variable {σ : Type}

/-- Run one operation, returning its result and the successor state. -/
def step (S : Sys σ) (op : Op) (f : FileState) (s : σ) :
    OpResult × FileState × σ :=
  match op with
  | Op.op_open m =>
    let r := Open S m f s
    (OpResult.rbool r.1, r.2)
  | Op.op_close =>
    let r := Close S f s
    (OpResult.rbool r.1, r.2)
  | Op.op_remove =>
    let r := Remove S f s
    (OpResult.rbool r.1, r.2)
  | Op.op_seek d w =>
    let r := Seek S d w f s
    (OpResult.rint r.1, r.2)
  | Op.op_tell =>
    let r := Tell S f s
    (OpResult.rint r.1, f, r.2)
  | Op.op_read n =>
    let r := Read S n f s
    (OpResult.rint r.1.1, r.2)
  | Op.op_write b =>
    let r := Write S b f s
    (OpResult.rint r.1, r.2)
  | Op.op_rename p =>
    let r := Rename S p f s
    (OpResult.rbool r.1, r.2)

/-- Run a list of operations, collecting the log of results. -/
def runOps (S : Sys σ) (ops : List Op) (f : FileState) (s : σ) :
    FileState × σ × List (Op × OpResult) :=
  match ops with
  | [] => (f, s, [])
  | op :: rest =>
    let r := step S op f s
    let t := runOps S rest r.2.1 r.2.2
    (t.1, t.2.1, (op, r.1) :: t.2.2)

/-- An OS handle-transition event: an `open(2)` acquisition or a `close(2)`
release, tagged with whether the primitive succeeded. -/
inductive Ev where
  | acq (ok : Bool)
  | rel (ok : Bool)
deriving DecidableEq, Repr

/-- The release event a `Close` invocation performs: none when the handle
is absent, otherwise one `close(2)` attempt. -/
def closeEv (S : Sys σ) (f : FileState) (s : σ) : List Ev :=
  if f.file_handle_ = -1 then []
  else
    [Ev.rel (if (S.sys_close f.file_handle_ s).1 = 0 then true else false)]

/-- The handle-transition events one operation performs. -/
def stepEv (S : Sys σ) (op : Op) (f : FileState) (s : σ) : List Ev :=
  match op with
  | Op.op_open m =>
    if f.file_handle_ ≠ -1 then
      let c := Close S f s
      if c.1 then closeEv S f s ++ [Ev.acq (open_switch S m c.2.1 c.2.2).1]
      else closeEv S f s
    else [Ev.acq (open_switch S m f s).1]
  | Op.op_close => closeEv S f s
  | Op.op_remove => closeEv S f s
  | Op.op_rename p =>
    let e := Exist_s S p s
    if e.1 then [] else closeEv S f e.2
  | _ => []

/-- The handle-transition events a whole run performs, in order. -/
def runEvents (S : Sys σ) (ops : List Op) (f : FileState) (s : σ) :
    List Ev :=
  match ops with
  | [] => []
  | op :: rest =>
    let r := step S op f s
    stepEv S op f s ++ runEvents S rest r.2.1 r.2.2

/-- Handle presence after one event: a successful acquisition or failure
sets it to the acquisition outcome; a successful release clears it; a
failed release leaves it. -/
def aliveEv (e : Ev) (alive : Bool) : Bool :=
  match e with
  | Ev.acq ok => ok
  | Ev.rel ok => if ok then false else alive

/-- Handle presence after a list of events. -/
def aliveFold (evs : List Ev) (alive : Bool) : Bool :=
  evs.foldl (fun a e => aliveEv e a) alive

/-- The claim's trace predicate, verbatim: true iff the most recent `Open`
returned true and no later `Close` or `Remove` returned true. -/
def specAliveStep (entry : Op × OpResult) (alive : Bool) : Bool :=
  match entry with
  | (Op.op_open _, OpResult.rbool b) => b
  | (Op.op_close, OpResult.rbool true) => false
  | (Op.op_remove, OpResult.rbool true) => false
  | _ => alive

/-- The claim's trace predicate over a whole result log. -/
def specAlive (log : List (Op × OpResult)) : Bool :=
  log.foldl (fun a e => specAliveStep e a) false

end File

/-! ## Helper lemmas -/

namespace File

variable {σ : Type}

lemma aliveFold_append (xs ys : List Ev) (a : Bool) :
    aliveFold (xs ++ ys) a = aliveFold ys (aliveFold xs a) := by
  simp [aliveFold, List.foldl_append]

lemma Test_close (S : Sys σ) (f : FileState) (s : σ) :
    Test (Close S f s).2.1 = aliveFold (closeEv S f s) (Test f) := by
  by_cases h : f.file_handle_ = -1
  · simp [Close, closeEv, h, aliveFold]
  · by_cases hr : (S.sys_close f.file_handle_ s).1 = 0
    · simp [Close, closeEv, h, hr, aliveFold, aliveEv, Test]
    · simp [Close, closeEv, h, hr, aliveFold, aliveEv, Test]

lemma Test_open_switch (S : Sys σ) (m : FileMode) (f : FileState) (s : σ) :
    Test (open_switch S m f s).2.1 = (open_switch S m f s).1 := by
  cases m <;> simp [open_switch, Test]

lemma Seek_fileState (S : Sys σ) (d : Int) (w : FileWhence)
    (f : FileState) (s : σ) : (Seek S d w f s).2.1 = f := by
  by_cases h : f.file_handle_ = -1
  · simp [Seek, h]
  · cases w <;> simp [Seek, h]

lemma Test_step (S : Sys σ) (op : Op) (f : FileState) (s : σ) :
    Test (step S op f s).2.1 = aliveFold (stepEv S op f s) (Test f) := by
  cases op with
  | op_open m =>
    by_cases h : f.file_handle_ = -1
    · simp [step, Open, stepEv, h, aliveFold, aliveEv, Test_open_switch]
    · by_cases hc : (Close S f s).1
      · simp [step, Open, stepEv, h, hc, aliveFold_append, aliveFold,
              aliveEv, Test_open_switch]
      · simp only [step, Open, stepEv, h, ne_eq, not_false_iff, if_true,
                   hc, Bool.false_eq_true, if_false]
        exact Test_close S f s
  | op_close => exact Test_close S f s
  | op_remove =>
    simp only [step, Remove, stepEv]
    exact Test_close S f s
  | op_seek d w => simp [step, stepEv, Seek_fileState, aliveFold]
  | op_tell => simp [step, stepEv, aliveFold]
  | op_read n =>
    by_cases h : f.file_handle_ = -1 <;>
      simp [step, Read, stepEv, h, aliveFold]
  | op_write b =>
    by_cases h : f.file_handle_ = -1 <;>
      simp [step, Write, stepEv, h, aliveFold]
  | op_rename p =>
    by_cases he : (Exist_s S p s).1
    · simp [step, Rename, stepEv, he, aliveFold]
    · by_cases hr :
        (S.sys_rename (Close S f (Exist_s S p s).2).2.1.file_path_ p
          (Close S f (Exist_s S p s).2).2.2).1 = 0
      · simp only [step, Rename, stepEv, he, Bool.false_eq_true, if_false,
                   hr, if_true]
        rw [show Test { (Close S f (Exist_s S p s).2).2.1 with
              file_path_ := p } =
            Test (Close S f (Exist_s S p s).2).2.1 from rfl]
        exact Test_close S f (Exist_s S p s).2
      · simp only [step, Rename, stepEv, he, Bool.false_eq_true, if_false,
                   hr, if_false]
        exact Test_close S f (Exist_s S p s).2

lemma Close_fail_state (S : Sys σ) (f : FileState) (s : σ)
    (h : (Close S f s).1 = false) : (Close S f s).2.1 = f := by
  by_cases hh : f.file_handle_ = -1
  · simp [Close, hh]
  · by_cases hr : (S.sys_close f.file_handle_ s).1 = 0
    · simp [Close, hh, hr] at h
    · simp [Close, hh, hr]

lemma Close_true_state (S : Sys σ) (f : FileState) (s : σ)
    (h : (Close S f s).1 = true) :
    (Close S f s).2.1 = { file_handle_ := -1, file_path_ := f.file_path_ } := by
  by_cases hh : f.file_handle_ = -1
  · simp [Close, hh] at h
  · by_cases hr : (S.sys_close f.file_handle_ s).1 = 0
    · simp [Close, hh, hr]
    · simp [Close, hh, hr] at h

lemma Close_path (S : Sys σ) (f : FileState) (s : σ) :
    (Close S f s).2.1.file_path_ = f.file_path_ := by
  by_cases hh : f.file_handle_ = -1
  · simp [Close, hh]
  · by_cases hr : (S.sys_close f.file_handle_ s).1 = 0 <;> simp [Close, hh, hr]

lemma Test_runOps (S : Sys σ) (ops : List Op) (f : FileState) (s : σ) :
    Test (runOps S ops f s).1 = aliveFold (runEvents S ops f s) (Test f) := by
  induction ops generalizing f s with
  | nil => rfl
  | cons op rest ih =>
    show Test (runOps S rest (step S op f s).2.1 (step S op f s).2.2).1 = _
    rw [ih, show runEvents S (op :: rest) f s =
          stepEv S op f s ++
            runEvents S rest (step S op f s).2.1 (step S op f s).2.2
        from rfl,
        aliveFold_append, Test_step]

lemma lookupFd_setFdPos_self (fds : List (Int × String × Int)) (fd v : Int) :
    lookupFd (setFdPos fds fd v) fd =
      (lookupFd fds fd).map (fun e => (e.1, v)) := by
  induction fds with
  | nil => rfl
  | cons hd rest ih =>
    obtain ⟨k, p, q⟩ := hd
    by_cases hk : k = fd
    · simp [setFdPos, lookupFd, hk]
    · simp [setFdPos, lookupFd, hk, ih]

lemma setFdPos_setFdPos (fds : List (Int × String × Int)) (fd v w : Int) :
    setFdPos (setFdPos fds fd v) fd w = setFdPos fds fd w := by
  induction fds with
  | nil => rfl
  | cons hd rest ih =>
    obtain ⟨k, p, q⟩ := hd
    by_cases hk : k = fd
    · simp [setFdPos, hk]
    · simp [setFdPos, hk, ih]

lemma setFdPos_self (fds : List (Int × String × Int)) (fd : Int)
    (p : String) (pos : Int) (h : lookupFd fds fd = some (p, pos)) :
    setFdPos fds fd pos = fds := by
  induction fds with
  | nil => rfl
  | cons hd rest ih =>
    obtain ⟨k, p', q⟩ := hd
    by_cases hk : k = fd
    · simp [lookupFd, hk] at h
      simp [setFdPos, hk, h.2]
    · simp [lookupFd, hk] at h
      simp [setFdPos, hk, ih h]

end File

namespace File

lemma posix_lseek_cur (fd off : Int) (u : OSState) (p : String) (pos : Int)
    (h : lookupFd u.fds fd = some (p, pos)) (hnn : ¬ pos + off < 0) :
    posix_lseek fd off SEEK_CUR u =
      (pos + off, { u with fds := setFdPos u.fds fd (pos + off) }) := by
  norm_num [posix_lseek, h, SEEK_SET, SEEK_CUR, hnn]

lemma posix_lseek_set (fd off : Int) (u : OSState) (p : String) (pos : Int)
    (h : lookupFd u.fds fd = some (p, pos)) (hnn : ¬ off < 0) :
    posix_lseek fd off SEEK_SET u =
      (off, { u with fds := setFdPos u.fds fd off }) := by
  norm_num [posix_lseek, h, SEEK_SET, hnn]

lemma posix_lseek_end (fd off : Int) (u : OSState) (p : String) (pos : Int)
    (content : List Nat) (h : lookupFd u.fds fd = some (p, pos))
    (hc : lookupFile u.files p = some content)
    (hnn : ¬ (content.length : Int) + off < 0) :
    posix_lseek fd off SEEK_END u =
      ((content.length : Int) + off,
       { u with fds := setFdPos u.fds fd ((content.length : Int) + off) }) := by
  norm_num [posix_lseek, h, hc, SEEK_SET, SEEK_CUR, SEEK_END, hnn]

lemma Tell_posix (u : OSState) (fd pos : Int) (q p : String)
    (hfd : fd ≠ -1) (h1 : lookupFd u.fds fd = some (p, pos))
    (h3 : 0 ≤ pos) :
    Tell posixSys { file_handle_ := fd, file_path_ := q } u = (pos, u) := by
  have hnn : ¬ pos + 0 < 0 := by omega
  have hl := posix_lseek_cur fd 0 u p pos h1 hnn
  simp only [Tell, hfd, if_neg, posixSys] at *
  simp [hl, setFdPos_self u.fds fd p pos h1]

end File

/-! ## Concrete fixtures for witnesses and counterexamples -/

/-- A path constant. -/
def pathA : String := "a"

/-- A second path constant. -/
def pathB : String := "b"

/-- A path constant bound to no filesystem entry. -/
def pathGone : String := "gone"

/-- A one-file filesystem with no open descriptors. -/
def stateA : OSState :=
  { files := [(pathA, [])], fds := [], next_fd := 3 }

/-- Filesystem with files at `pathA` and `pathB`, and descriptor 3 open on
`pathA` at position 0. -/
def stateAB : OSState :=
  { files := [(pathA, [1]), (pathB, [])], fds := [(3, pathA, 0)],
    next_fd := 4 }

/-- Filesystem with only `pathA`, and descriptor 3 open on `pathA`; used
with a `File` bound to the dangling `pathGone`, whose rename must fail. -/
def stateGone : OSState :=
  { files := [(pathA, [7])], fds := [(3, pathA, 0)], next_fd := 4 }

/-! ## The claims -/

/-- Claim C1, counterexample.  The claim states that after any operation
sequence from a fresh `File`, `Test()` is true iff the most recent `Open`
succeeded and no subsequent `Close` or `Remove` succeeded.  Run
`[Open READ, Rename b]` from `File(a)` over a filesystem holding only `a`:
both operations succeed, so the claim's predicate over the result log is
true (a successful `Rename` is neither a `Close` nor a `Remove`), yet
`Test()` is false, because `Rename` closed the handle. -/
theorem C1_counterexample :
    File.Test (File.runOps posixSys
      [Op.op_open FileMode.ckOPEN_READ, Op.op_rename pathB]
      (File.construct pathA) stateA).1 = false ∧
    File.specAlive (File.runOps posixSys
      [Op.op_open FileMode.ckOPEN_READ, Op.op_rename pathB]
      (File.construct pathA) stateA).2.2 = true := by
  constructor <;> decide

/-- Claim C1, amended.  For every abstract OS, every operation sequence and
every start state, `Test()` after running the sequence from a freshly
constructed `File` equals the fold of the OS handle-transition events the
run performs: initially false, a handle acquisition by `open(2)` sets it to
the acquisition's outcome, a successful `close(2)` clears it, and a failed
`close(2)` leaves it — where `close(2)` is attempted by `Close`, by
`Remove` (even when its unlink fails), by `Rename` when the target does not
exist (even when the OS rename fails), and by `Open` on a present handle. -/
theorem C1_test_eq_handle_events {σ : Type} (S : Sys σ) (ops : List Op)
    (p : String) (s : σ) :
    File.Test (File.runOps S ops (File.construct p) s).1 =
      File.aliveFold (File.runEvents S ops (File.construct p) s) false := by
  have h := File.Test_runOps S ops (File.construct p) s
  simpa [File.construct, File.Test] using h

/-- Claim C2, counterexample.  The claim states that when a file exists at
the new path, `Rename` returns false and any open handle is closed.  With
files at `a` (content `[1]`) and `b`, and descriptor 3 open on `a`:
`Rename b` returns false, but the handle is still present (`Test` is true)
— the source returns before the `Close()` call when the target exists. -/
theorem C2_counterexample :
    (File.Rename posixSys pathB
      { file_handle_ := 3, file_path_ := pathA } stateAB).1 = false ∧
    File.Test (File.Rename posixSys pathB
      { file_handle_ := 3, file_path_ := pathA } stateAB).2.1 = true := by
  constructor <;> decide

/-- Claim C2, amended.  If a file exists at the new path `p2`, then
`Rename(p2)` returns false and leaves everything untouched: the `File`'s
path and handle are unchanged (an open handle stays open), and the
filesystem is unchanged (both files remain, content of the old path
intact). -/
theorem C2_rename_existing_target (u : OSState) (f : FileState)
    (p2 : String) (c : List Nat) (h : lookupFile u.files p2 = some c) :
    File.Rename posixSys p2 f u = (false, f, u) := by
  simp [File.Rename, File.Exist_s, posixSys, posix_stat, h]

/-- Claim C2 witness: files at `a` and `b`, descriptor 3 open on `a`;
`Rename b` returns false leaving the `File` and the filesystem unchanged. -/
theorem C2_witness :
    lookupFile stateAB.files pathB = some [] ∧
    File.Rename posixSys pathB
      { file_handle_ := 3, file_path_ := pathA } stateAB =
      (false, { file_handle_ := 3, file_path_ := pathA }, stateAB) :=
  ⟨by decide,
   C2_rename_existing_target stateAB
     { file_handle_ := 3, file_path_ := pathA } pathB [] (by decide)⟩

/-- Claim C3: `Open` on a present handle first attempts `Close`; if that
close fails, `Open` returns false with the prior handle present and
unchanged; if the close succeeds, or the handle was absent, `Open` runs the
acquisition switch, whose result is true iff the stored handle is valid
afterwards. -/
theorem C3_open_closes_first {σ : Type} (S : Sys σ) (m : FileMode)
    (f : FileState) (s : σ) :
    (f.file_handle_ ≠ -1 → (File.Close S f s).1 = false →
      File.Open S m f s = (false, f, (File.Close S f s).2.2)) ∧
    (f.file_handle_ ≠ -1 → (File.Close S f s).1 = true →
      File.Open S m f s =
        File.open_switch S m (File.Close S f s).2.1 (File.Close S f s).2.2) ∧
    (f.file_handle_ = -1 → File.Open S m f s = File.open_switch S m f s) ∧
    ((File.open_switch S m f s).1 =
      File.Test (File.open_switch S m f s).2.1) := by
  refine ⟨?_, ?_, ?_, ?_⟩
  · intro h hc
    have hs := File.Close_fail_state S f s hc
    simp [File.Open, h, hc, hs]
  · intro h hc
    simp [File.Open, h, hc]
  · intro h
    simp [File.Open, h]
  · exact (File.Test_open_switch S m f s).symm

/-- Claim C3 witness: a `File` holding stale descriptor 5 (absent from the
descriptor table, so the OS close fails); `Open` returns false and keeps
the prior handle. -/
theorem C3_witness :
    ({ file_handle_ := 5, file_path_ := pathA } : FileState).file_handle_ ≠
      -1 ∧
    (File.Close posixSys
      { file_handle_ := 5, file_path_ := pathA } stateA).1 = false ∧
    File.Open posixSys FileMode.ckOPEN_READ
      { file_handle_ := 5, file_path_ := pathA } stateA =
      (false, { file_handle_ := 5, file_path_ := pathA }, stateA) :=
  ⟨by decide, by decide,
   ((C3_open_closes_first posixSys FileMode.ckOPEN_READ
       { file_handle_ := 5, file_path_ := pathA } stateA).1
     (by decide) (by decide)).trans (by decide)⟩

/-- Claim C4: `Close` on an absent handle returns false with the `File` and
the OS untouched; on a present handle a successful OS close marks the
handle absent and returns true, a failed OS close keeps the handle and
returns false; and, in the concrete POSIX model, the first `Close` on an
open `File` (valid descriptor) returns true and a second `Close` without an
intervening `Open` returns false. -/
theorem C4_close_spec {σ : Type} (S : Sys σ) (f : FileState) (s : σ)
    (p : String) (fd : Int) (q : String) (u : OSState)
    (entry : String × Int) :
    (File.Close S (File.construct p) s = (false, File.construct p, s)) ∧
    (f.file_handle_ ≠ -1 → (S.sys_close f.file_handle_ s).1 = 0 →
      File.Close S f s =
        (true, { f with file_handle_ := -1 },
         (S.sys_close f.file_handle_ s).2)) ∧
    (f.file_handle_ ≠ -1 → (S.sys_close f.file_handle_ s).1 ≠ 0 →
      File.Close S f s = (false, f, (S.sys_close f.file_handle_ s).2)) ∧
    (fd ≠ -1 → lookupFd u.fds fd = some entry →
      (File.Close posixSys { file_handle_ := fd, file_path_ := q } u).1 =
        true ∧
      (File.Close posixSys
        (File.Close posixSys
          { file_handle_ := fd, file_path_ := q } u).2.1
        (File.Close posixSys
          { file_handle_ := fd, file_path_ := q } u).2.2).1 = false) := by
  refine ⟨?_, ?_, ?_, ?_⟩
  · simp [File.Close, File.construct]
  · intro h hr
    simp [File.Close, h, hr]
  · intro h hr
    simp [File.Close, h, hr]
  · intro h hfd
    have hclose :
        File.Close posixSys { file_handle_ := fd, file_path_ := q } u =
          (true, { file_handle_ := -1, file_path_ := q },
           { u with fds := removeFd u.fds fd }) := by
      simp [File.Close, h, posixSys, posix_close, hfd]
    refine ⟨by simp [hclose], ?_⟩
    rw [hclose]
    simp [File.Close]

/-- Claim C4 witness: descriptor 3 is open on `a`; the first `Close`
returns true, the second returns false. -/
theorem C4_witness :
    ((3 : Int) ≠ -1) ∧ lookupFd stateAB.fds 3 = some (pathA, 0) ∧
    ((File.Close posixSys
        { file_handle_ := 3, file_path_ := pathA } stateAB).1 = true ∧
     (File.Close posixSys
        (File.Close posixSys
          { file_handle_ := 3, file_path_ := pathA } stateAB).2.1
        (File.Close posixSys
          { file_handle_ := 3, file_path_ := pathA } stateAB).2.2).1 =
       false) :=
  ⟨by decide, by decide,
   (C4_close_spec posixSys
       { file_handle_ := 3, file_path_ := pathA } stateAB pathA 3 pathA
       stateAB (pathA, 0)).2.2.2 (by decide) (by decide)⟩

/-- Claim C5: with an open, valid descriptor at position `pos` on a file of
content `content`, `Size()` returns the file length (the END offset) and
restores the OS state — in particular the file position — exactly; a failed
seek chain (stale descriptor) yields `-1`; and for every abstract OS,
`Size` never touches the `File`'s fields. -/
theorem C5_size_frame (u : OSState) (fd pos : Int) (q p : String)
    (content : List Nat) :
    (fd ≠ -1 → lookupFd u.fds fd = some (p, pos) →
     lookupFile u.files p = some content → 0 ≤ pos →
      File.Size posixSys { file_handle_ := fd, file_path_ := q } u =
        ((content.length : Int),
         { file_handle_ := fd, file_path_ := q }, u)) ∧
    (fd ≠ -1 → lookupFd u.fds fd = none →
      (File.Size posixSys { file_handle_ := fd, file_path_ := q } u).1 =
        -1) ∧
    (∀ (τ : Type) (S : Sys τ) (f : FileState) (s : τ),
      (File.Size S f s).2.1 = f) := by
  refine ⟨?_, ?_, ?_⟩
  · intro hfd h1 h2 h3
    have e1 := File.Tell_posix u fd pos q p hfd h1 h3
    have hnn2 : ¬ (content.length : Int) + 0 < 0 := by omega
    have e2raw := File.posix_lseek_end fd 0 u p pos content h1 h2 hnn2
    have e2 : File.Seek posixSys 0 FileWhence.ckFILE_END
        { file_handle_ := fd, file_path_ := q } u =
        ((content.length : Int), { file_handle_ := fd, file_path_ := q },
         { u with fds := setFdPos u.fds fd (content.length : Int) }) := by
      simp only [File.Seek, hfd, if_neg, posixSys]
      simp [e2raw]
    have h1b : lookupFd (setFdPos u.fds fd (content.length : Int)) fd =
        some (p, (content.length : Int)) := by
      rw [File.lookupFd_setFdPos_self, h1]
      rfl
    have hnn3 : ¬ (0 : Int) + pos < 0 := by omega
    have e3raw := File.posix_lseek_set fd pos
      { u with fds := setFdPos u.fds fd (content.length : Int) } p
      (content.length : Int) h1b (by omega)
    have e3 : File.Seek posixSys pos FileWhence.ckFILE_BEGIN
        { file_handle_ := fd, file_path_ := q }
        { u with fds := setFdPos u.fds fd (content.length : Int) } =
        (pos, { file_handle_ := fd, file_path_ := q }, u) := by
      simp only [File.Seek, hfd, if_neg, posixSys]
      simp [e3raw, File.setFdPos_setFdPos,
            File.setFdPos_self u.fds fd p pos h1]
    simp only [File.Size, hfd, if_neg]
    simp [e1, e2, e3]
  · intro hfd h1
    simp [File.Size, File.Tell, File.Seek, hfd, posixSys, posix_lseek, h1]
  · intro τ S f s
    by_cases h : f.file_handle_ = -1
    · simp [File.Size, h]
    · simp [File.Size, h, File.Seek_fileState]

/-- Claim C5 witness: descriptor 3 open on `a` (content `[1]`) at position
0; `Size()` returns 1 and leaves the `File` and the OS state unchanged. -/
theorem C5_witness :
    ((3 : Int) ≠ -1) ∧ lookupFd stateAB.fds 3 = some (pathA, 0) ∧
    lookupFile stateAB.files pathA = some [1] ∧
    File.Size posixSys { file_handle_ := 3, file_path_ := pathA } stateAB =
      (1, { file_handle_ := 3, file_path_ := pathA }, stateAB) :=
  ⟨by decide, by decide, by decide,
   ((C5_size_frame stateAB 3 0 pathA pathA [1]).1 (by decide) (by decide)
     (by decide) (by decide)).trans (by decide)⟩

/-- Claim C6: `Tell()` returns the same value and leaves the OS in the same
state as `Seek(0, CURRENT)`; neither changes the `File`'s fields; on an
absent handle both yield `-1`; and on a valid descriptor `Tell()` returns
the current absolute position without changing anything. -/
theorem C6_tell_is_seek_current {σ : Type} (S : Sys σ) (f : FileState)
    (s : σ) (p : String) (u : OSState) (fd pos : Int) (q r : String) :
    ((File.Tell S f s).1 =
      (File.Seek S 0 FileWhence.ckFILE_CURRENT f s).1) ∧
    ((File.Tell S f s).2 =
      (File.Seek S 0 FileWhence.ckFILE_CURRENT f s).2.2) ∧
    ((File.Seek S 0 FileWhence.ckFILE_CURRENT f s).2.1 = f) ∧
    (File.Tell S (File.construct p) s = (-1, s)) ∧
    (fd ≠ -1 → lookupFd u.fds fd = some (r, pos) → 0 ≤ pos →
      File.Tell posixSys { file_handle_ := fd, file_path_ := q } u =
        (pos, u)) := by
  refine ⟨?_, ?_, File.Seek_fileState S 0 FileWhence.ckFILE_CURRENT f s,
          ?_, ?_⟩
  · by_cases h : f.file_handle_ = -1 <;> simp [File.Tell, File.Seek, h]
  · by_cases h : f.file_handle_ = -1 <;> simp [File.Tell, File.Seek, h]
  · simp [File.Tell, File.construct]
  · intro hfd h1 h3
    exact File.Tell_posix u fd pos q r hfd h1 h3

/-- Claim C6 witness: descriptor 3 open on `a` at position 0; `Tell()`
returns 0 with the OS state unchanged. -/
theorem C6_witness :
    ((3 : Int) ≠ -1) ∧ lookupFd stateAB.fds 3 = some (pathA, 0) ∧
    File.Tell posixSys { file_handle_ := 3, file_path_ := pathA } stateAB =
      (0, stateAB) :=
  ⟨by decide, by decide,
   (C6_tell_is_seek_current posixSys
       { file_handle_ := 3, file_path_ := pathA } stateAB pathA stateAB 3 0
       pathA pathA).2.2.2.2 (by decide) (by decide) (by decide)⟩

/-- Claim C7: on a `File` whose handle is absent, `Seek`, `Tell`, `Read`
and `Write` return `-1` with the `File` and the OS state unchanged, for
every abstract OS — hence without invoking any OS primitive. -/
theorem C7_closed_handle_sentinel {σ : Type} (S : Sys σ) (p : String)
    (s : σ) (d : Int) (w : FileWhence) (n : Nat) (buf : List Nat) :
    File.Seek S d w (File.construct p) s = (-1, File.construct p, s) ∧
    File.Tell S (File.construct p) s = (-1, s) ∧
    File.Read S n (File.construct p) s = ((-1, []), File.construct p, s) ∧
    File.Write S buf (File.construct p) s = (-1, File.construct p, s) := by
  refine ⟨?_, ?_, ?_, ?_⟩ <;>
    simp [File.Seek, File.Tell, File.Read, File.Write, File.construct]

/-- Claim C8: on a freshly constructed `File(p)` (no open handle), the
instance operations agree with the static path-only forms: `Exist`, `Size`,
`Time`, `Access` and (modelled from the spec) `hidden`. -/
theorem C8_static_instance {σ : Type} (S : Sys σ) (p : String) (s : σ)
    (m : FileMode) :
    File.Exist S (File.construct p) s = File.Exist_s S p s ∧
    File.Size S (File.construct p) s =
      ((File.Size_s S p s).1, File.construct p, (File.Size_s S p s).2) ∧
    File.Time S (File.construct p) s = File.Time_s S p s ∧
    File.Access S (File.construct p) m s = File.Access_s S p m s ∧
    File.hidden (File.construct p) = File.hidden_s p := by
  refine ⟨?_, ?_, ?_, ?_, ?_⟩ <;>
    simp [File.Exist, File.Size, File.Time, File.Access, File.hidden,
          File.construct]

/-- Claim C9: `Remove()` performs `Close` unconditionally — the `File`
post-state is exactly the `Close` post-state, whatever the close result —
then unlinks the bound path, returning true iff the unlink succeeds; in the
concrete model a failed close (stale descriptor) is swallowed and the
unlink still proceeds. -/
theorem C9_remove_close_then_unlink {σ : Type} (S : Sys σ) (f : FileState)
    (s : σ) (u : OSState) (fd : Int) (q : String) (c : List Nat) :
    ((File.Remove S f s).2.1 = (File.Close S f s).2.1) ∧
    ((File.Remove S f s).1 =
      (if (S.sys_unlink (File.Close S f s).2.1.file_path_
            (File.Close S f s).2.2).1 = 0 then true else false)) ∧
    (fd ≠ -1 → lookupFd u.fds fd = none → lookupFile u.files q = some c →
      (File.Remove posixSys { file_handle_ := fd, file_path_ := q } u).1 =
        true ∧
      (File.Close posixSys
        { file_handle_ := fd, file_path_ := q } u).1 = false) := by
  refine ⟨rfl, rfl, ?_⟩
  intro hfd h1 h2
  constructor
  · simp [File.Remove, File.Close, hfd, posixSys, posix_close, posix_unlink,
          h1, h2]
  · simp [File.Close, hfd, posixSys, posix_close, h1]

/-- Claim C9 witness: a `File` on `a` holding stale descriptor 9 over a
filesystem containing `a`; the internal close fails, yet `Remove()`
returns true because the unlink succeeds. -/
theorem C9_witness :
    ((9 : Int) ≠ -1) ∧ lookupFd stateA.fds 9 = none ∧
    lookupFile stateA.files pathA = some [] ∧
    ((File.Remove posixSys
        { file_handle_ := 9, file_path_ := pathA } stateA).1 = true ∧
     (File.Close posixSys
        { file_handle_ := 9, file_path_ := pathA } stateA).1 = false) :=
  ⟨by decide, by decide, by decide,
   (C9_remove_close_then_unlink posixSys
       { file_handle_ := 9, file_path_ := pathA } stateA stateA 9 pathA
       []).2.2 (by decide) (by decide) (by decide)⟩

/-- Claim C10: when the target of `Rename` does not exist, the handle is
closed before the OS rename; so if the close succeeds and the OS rename
then fails, `Rename` returns false with the path unchanged but the handle
absent — the failure is not atomic with respect to the handle field. -/
theorem C10_rename_closes_handle {σ : Type} (S : Sys σ) (f : FileState)
    (s : σ) (p2 : String)
    (h1 : (File.Exist_s S p2 s).1 = false)
    (h2 : (File.Close S f (File.Exist_s S p2 s).2).1 = true)
    (h3 : (S.sys_rename f.file_path_ p2
            (File.Close S f (File.Exist_s S p2 s).2).2.2).1 ≠ 0) :
    File.Rename S p2 f s =
      (false, { file_handle_ := -1, file_path_ := f.file_path_ },
       (S.sys_rename f.file_path_ p2
         (File.Close S f (File.Exist_s S p2 s).2).2.2).2) := by
  have hc := File.Close_true_state S f (File.Exist_s S p2 s).2 h2
  simp [File.Rename, h1, hc, h3]

/-- Claim C10 witness: descriptor 3 open, target `b` absent, OS rename of
the bound (dangling) path fails; `Rename` returns false with the path kept
but the handle closed. -/
theorem C10_witness :
    (File.Exist_s posixSys pathB stateGone).1 = false ∧
    (File.Close posixSys
      { file_handle_ := 3, file_path_ := pathGone }
      (File.Exist_s posixSys pathB stateGone).2).1 = true ∧
    File.Rename posixSys pathB
      { file_handle_ := 3, file_path_ := pathGone } stateGone =
      (false, { file_handle_ := -1, file_path_ := pathGone },
       { files := [(pathA, [7])], fds := [], next_fd := 4 }) :=
  ⟨by decide, by decide,
   (C10_rename_closes_handle posixSys
       { file_handle_ := 3, file_path_ := pathGone } stateGone pathB
       (by decide) (by decide) (by decide)).trans (by decide)⟩

end ckcore
